import Mathlib

/-
  Verification of the upload-then-persist orchestration of the e-library
  backend (src/book/bookController.ts): createBook, updateBook, deleteBook.

  The controllers are embedded as pure Lean functions over an explicit
  environment of oracles (local filesystem contents, remote object-store
  upload/destroy outcomes, catalog-store outcomes).  Each controller returns
  its HTTP-visible response, the final local filesystem, the final catalog
  state it touched, and a trace of the side-effect attempts in program order.
-/

namespace ELibrary

/-- A staged multipart file descriptor: the fields of an Express.Multer.File
that the controller reads. -/
structure FilePart where
  filename : String
  mimetype : String
deriving DecidableEq, Repr

/-- A catalog book record (a bookModel document). -/
structure Book where
  id : String
  title : String
  description : String
  genre : String
  author : String
  coverImage : String
  file : String
deriving DecidableEq, Repr

/-- A thrown JS error as the controller inspects it: constructor name,
message, and code. -/
structure Err where
  name : String
  message : String
  code : String
deriving DecidableEq, Repr

/-- The HTTP-visible outcome of a controller call: either a success response
that was sent, or the HttpError handed to next(). -/
inductive Response where
  | created (id : String)
  | jsonBook (b : Book)
  | noContent
  | err (status : Nat) (msg : String)
deriving DecidableEq, Repr

/-- Observable side-effect attempts, recorded in program order.  Upload and
destroy effects are the network calls to the remote object store; unlink is a
local temp-file deletion attempt; createRecord, updateRecord and deleteRecord
are the catalog-store mutation attempts. -/
inductive Effect where
  | uploadImage (p : String)
  | uploadRaw (p : String)
  | createRecord
  | unlink (p : String)
  | destroyImage (i : String)
  | destroyRaw (i : String)
  | updateRecord
  | deleteRecord
deriving DecidableEq, Repr

/-- Whether an effect is a network call to the remote object store (an
upload). -/
def Effect.isUpload : Effect → Bool
  | .uploadImage _ => true
  | .uploadRaw _ => true
  | _ => false

/-- The local filesystem, as the set of paths that currently exist. -/
def FS : Type := String → Bool

/-- Removing one path from the local filesystem. -/
def removeFile (fs : FS) (p : String) : FS :=
  fun q => if q = p then false else fs q

/-- The resolved staging directory used by path.resolve in the controller. -/
def uploadsDir : String := "public/data/uploads"

/-- path.resolve(__dirname, "../../public/data/uploads", name). -/
def resolvePath (name : String) : String := uploadsDir ++ "/" ++ name

/-- JS String.prototype.startsWith, as a character-list prefix test. -/
def jsStartsWith (s pre : String) : Bool := pre.data.isPrefixOf s.data

/-- Whether pat occurs as a contiguous segment of l. -/
def hasSeg (pat : List Char) : List Char → Bool
  | [] => pat.isEmpty
  | c :: rest => pat.isPrefixOf (c :: rest) || hasSeg pat rest

/-- JS String.prototype.includes: pat occurs as a contiguous substring. -/
def includesSubstr (s pat : String) : Bool := hasSeg pat.data s.data

/-- JS String.prototype.split with a one-character separator, on character
lists: every occurrence of sep starts a new segment, so "a/b" gives two
segments and a trailing separator gives a trailing empty segment. -/
def splitChars (sep : Char) : List Char → List (List Char)
  | [] => [[]]
  | c :: rest =>
    match splitChars sep rest with
    | [] => [[]]
    | h :: t => if c = sep then [] :: h :: t else (c :: h) :: t

/-- JS String.prototype.split with a one-character separator. -/
def jsSplit (s : String) (sep : Char) : List String :=
  (splitChars sep s.data).map (fun l => String.mk l)

/-- JS Array.prototype.at(-k) for k ≥ 1: the k-th element from the end, or
undefined (none) when the array is too short. -/
def atNeg (l : List String) (k : Nat) : Option String := l.reverse[k - 1]?

/-- JS string concatenation of a possibly-undefined value: undefined prints
as the string "undefined". -/
def strOrUndef : Option String → String
  | none => "undefined"
  | some s => s

/-- The public-id derivation deleteBook applies to a stored coverImage URL:
second-to-last slash-segment, a slash, and the last slash-segment's
second-to-last dot-segment (the name minus its extension for a single-dot
name). -/
def coverImagePublicId (url : String) : String :=
  let coverFileSplits := jsSplit url '/'
  strOrUndef (atNeg coverFileSplits 2) ++ "/" ++
    strOrUndef ((atNeg coverFileSplits 1).map
      (fun last => strOrUndef (atNeg (jsSplit last '.') 2)))

/-- The public-id derivation deleteBook applies to a stored file URL:
second-to-last slash-segment, a slash, and the full last slash-segment. -/
def bookFilePublicId (url : String) : String :=
  let bookFileSplits := jsSplit url '/'
  strOrUndef (atNeg bookFileSplits 2) ++ "/" ++ strOrUndef (atNeg bookFileSplits 1)

/-- The error re-classification performed by createBook's catch block before
any error is surfaced. -/
def classifyCreateErr (e : Err) : Response :=
  if includesSubstr e.message "cloudinary" then
    .err 500 "Error uploading files to cloud storage"
  else if e.name = "ValidationError" then
    .err 400 ("Invalid book data: " ++ e.message)
  else if e.code = "ENOENT" then
    .err 400 "File not found on server"
  else
    .err 500 ("Error while uploading the files: " ++ e.message)

/-- The environment of oracles for one createBook request: the local
filesystem, the two remote upload outcomes per path, whether an unlink of an
existing path succeeds, and the catalog create outcome (the new record id on
success). -/
structure CreateEnv where
  fs : String → Bool
  uploadImage : String → Except Err String
  uploadRaw : String → Except Err String
  unlinkOk : String → Bool
  create : Except Err String

/-- The observable result of one createBook request. -/
structure CreateOut where
  resp : Response
  fs : String → Bool
  book : Option Book
  trace : List Effect

/-- Whether an unlink attempt on path p succeeds: the file must exist and the
unlink oracle must allow it; otherwise fs.promises.unlink rejects. -/
def unlinkSucceeds (fs : String → Bool) (unlinkOk : String → Bool) (p : String) : Bool :=
  fs p && unlinkOk p

/-- createBook's catch-block cleanup: one try block holding two
existence-guarded unlinks in sequence; a rejection of the first unlink is
caught by the shared catch, so the second existence check and unlink are
skipped. -/
def createCleanup (unlinkOk : String → Bool) (fs : String → Bool) (p1 p2 : String) :
    (String → Bool) × List Effect :=
  if fs p1 then
    if unlinkOk p1 then
      let fs1 := removeFile fs p1
      if fs1 p2 then
        if unlinkOk p2 then (removeFile fs1 p2, [Effect.unlink p1, Effect.unlink p2])
        else (fs1, [Effect.unlink p1, Effect.unlink p2])
      else (fs1, [Effect.unlink p1])
    else (fs, [Effect.unlink p1])
  else
    if fs p2 then
      if unlinkOk p2 then (removeFile fs p2, [Effect.unlink p2])
      else (fs, [Effect.unlink p2])
    else (fs, [])

/-- createBook's catch block: clean up both temp files best-effort, then
surface the re-classified error. -/
def createBookCatch (env : CreateEnv) (e : Err) (tr : List Effect) (p1 p2 : String) :
    CreateOut :=
  let c := createCleanup env.unlinkOk env.fs p1 p2
  { resp := classifyCreateErr e, fs := c.1, book := none, trace := tr ++ c.2 }

/-- createBook's success-path cleanup: one try block with two unguarded
unlinks in sequence; a rejection of the first is caught by the shared catch,
skipping the second, and never fails the request. -/
def createSuccessCleanup (unlinkOk : String → Bool) (fs : String → Bool) (p1 p2 : String) :
    (String → Bool) × List Effect :=
  if unlinkSucceeds fs unlinkOk p1 then
    let fs1 := removeFile fs p1
    if unlinkSucceeds fs1 unlinkOk p2 then
      (removeFile fs1 p2, [Effect.unlink p1, Effect.unlink p2])
    else (fs1, [Effect.unlink p1, Effect.unlink p2])
  else (fs, [Effect.unlink p1])

/-- The createBook controller: validate fields and files in order, verify
local presence, upload the cover to the image bucket, upload the document to
the raw bucket, create the catalog record, then best-effort temp cleanup; any
error in the try block runs the guarded cleanup and surfaces a re-classified
error. -/
def createBook (env : CreateEnv) (req_title req_genre req_description : String)
    (req_coverImage req_file : Option FilePart) (userId : String) : CreateOut :=
  if req_title = "" ∨ req_genre = "" ∨ req_description = "" then
    { resp := .err 400 "Title, genre, and description are required",
      fs := env.fs, book := none, trace := [] }
  else
    match req_coverImage with
    | none =>
      { resp := .err 400 "Cover image is required", fs := env.fs, book := none, trace := [] }
    | some coverImageFile =>
      match req_file with
      | none =>
        { resp := .err 400 "Book file is required", fs := env.fs, book := none, trace := [] }
      | some bookFile =>
        if !(jsStartsWith coverImageFile.mimetype "image/") then
          { resp := .err 400 "Cover image must be an image file",
            fs := env.fs, book := none, trace := [] }
        else if bookFile.mimetype ≠ "application/pdf" then
          { resp := .err 400 "Book file must be a PDF",
            fs := env.fs, book := none, trace := [] }
        else
          let filePath := resolvePath coverImageFile.filename
          let bookFilePath := resolvePath bookFile.filename
          if !(env.fs filePath) then
            { resp := .err 400 "Cover image file not found on server",
              fs := env.fs, book := none, trace := [] }
          else if !(env.fs bookFilePath) then
            { resp := .err 400 "Book file not found on server",
              fs := env.fs, book := none, trace := [] }
          else
            match env.uploadImage filePath with
            | .error e =>
              createBookCatch env e [Effect.uploadImage filePath] filePath bookFilePath
            | .ok coverUrl =>
              match env.uploadRaw bookFilePath with
              | .error e =>
                createBookCatch env e
                  [Effect.uploadImage filePath, Effect.uploadRaw bookFilePath]
                  filePath bookFilePath
              | .ok fileUrl =>
                match env.create with
                | .error e =>
                  createBookCatch env e
                    [Effect.uploadImage filePath, Effect.uploadRaw bookFilePath,
                     Effect.createRecord]
                    filePath bookFilePath
                | .ok newId =>
                  let newBook : Book :=
                    { id := newId, title := req_title, description := req_description,
                      genre := req_genre, author := userId,
                      coverImage := coverUrl, file := fileUrl }
                  let c := createSuccessCleanup env.unlinkOk env.fs filePath bookFilePath
                  { resp := .created newId, fs := c.1, book := some newBook,
                    trace := [Effect.uploadImage filePath, Effect.uploadRaw bookFilePath,
                              Effect.createRecord] ++ c.2 }

/-- The environment of oracles for one updateBook request: the record found
for the requested bookId (none means not found), the local filesystem, the
two remote upload outcomes per path, the unlink oracle, and whether the
catalog findOneAndUpdate call throws. -/
structure UpdateEnv where
  db : Option Book
  fs : String → Bool
  uploadImage : String → Except Err String
  uploadRaw : String → Except Err String
  unlinkOk : String → Bool
  update : Option Err

/-- The observable result of one updateBook request: the response, the final
state of the record under the requested bookId, the final filesystem, and the
effect trace. -/
structure UpdateOut where
  resp : Response
  db : Option Book
  fs : String → Bool
  trace : List Effect

/-- Outcome of one optional-file block of updateBook: either an early return
(abort) with the response to surface, or the captured secure URL ("" when the
file was not supplied). -/
inductive StepResult where
  | abort (r : Response) (fs : String → Bool) (trace : List Effect)
  | ok (url : String) (fs : String → Bool) (trace : List Effect)

/-- updateBook's cover-image block: when a cover file is supplied, validate
its content type, verify local presence, then in one try block upload it and
unlink the local temp file; any rejection in that try block aborts the update
with a 500 cover-upload error. -/
def updateCoverStep (env : UpdateEnv) (fs0 : String → Bool) (c : Option FilePart) :
    StepResult :=
  match c with
  | none => .ok "" fs0 []
  | some cf =>
    if !(jsStartsWith cf.mimetype "image/") then
      .abort (.err 400 "Cover image must be an image file") fs0 []
    else
      let filePath := resolvePath cf.filename
      if !(fs0 filePath) then
        .abort (.err 400 "Cover image file not found on server") fs0 []
      else
        match env.uploadImage filePath with
        | .error _ => .abort (.err 500 "Error uploading cover image") fs0 [Effect.uploadImage filePath]
        | .ok url =>
          if unlinkSucceeds fs0 env.unlinkOk filePath then
            .ok url (removeFile fs0 filePath) [Effect.uploadImage filePath, Effect.unlink filePath]
          else
            .abort (.err 500 "Error uploading cover image") fs0
              [Effect.uploadImage filePath, Effect.unlink filePath]

/-- updateBook's book-file block: when a document file is supplied, validate
its content type, verify local presence, then in one try block upload it to
the raw bucket and unlink the local temp file; any rejection in that try
block aborts the update with a 500 book-file-upload error. -/
def updateFileStep (env : UpdateEnv) (fs0 : String → Bool) (c : Option FilePart) :
    StepResult :=
  match c with
  | none => .ok "" fs0 []
  | some bf =>
    if bf.mimetype ≠ "application/pdf" then
      .abort (.err 400 "Book file must be a PDF") fs0 []
    else
      let bookFilePath := resolvePath bf.filename
      if !(fs0 bookFilePath) then
        .abort (.err 400 "Book file not found on server") fs0 []
      else
        match env.uploadRaw bookFilePath with
        | .error _ => .abort (.err 500 "Error uploading book file") fs0 [Effect.uploadRaw bookFilePath]
        | .ok url =>
          if unlinkSucceeds fs0 env.unlinkOk bookFilePath then
            .ok url (removeFile fs0 bookFilePath) [Effect.uploadRaw bookFilePath, Effect.unlink bookFilePath]
          else
            .abort (.err 500 "Error uploading book file") fs0
              [Effect.uploadRaw bookFilePath, Effect.unlink bookFilePath]

/-- The updateBook controller: load the record, enforce ownership by string
comparison, process the optional cover then the optional document file, and
finally persist one atomic findOneAndUpdate keeping an old URL whenever no
replacement was uploaded (the captured URL is the empty, falsy string). -/
def updateBook (env : UpdateEnv) (req_title req_description req_genre : String)
    (req_coverImage req_file : Option FilePart) (userId : String) : UpdateOut :=
  match env.db with
  | none => { resp := .err 404 "Book not found", db := none, fs := env.fs, trace := [] }
  | some book =>
    if book.author ≠ userId then
      { resp := .err 403 "You can not update others book.", db := some book,
        fs := env.fs, trace := [] }
    else
      match updateCoverStep env env.fs req_coverImage with
      | .abort r fs1 tr1 => { resp := r, db := some book, fs := fs1, trace := tr1 }
      | .ok completeCoverImage fs1 tr1 =>
        match updateFileStep env fs1 req_file with
        | .abort r fs2 tr2 =>
          { resp := r, db := some book, fs := fs2, trace := tr1 ++ tr2 }
        | .ok completeFileName fs2 tr2 =>
          match env.update with
          | some e =>
            { resp := .err 500 ("Error while updating the book: " ++ e.message),
              db := some book, fs := fs2, trace := tr1 ++ tr2 ++ [Effect.updateRecord] }
          | none =>
            let updatedBook : Book :=
              { book with
                  title := req_title, description := req_description, genre := req_genre,
                  coverImage := if completeCoverImage ≠ "" then completeCoverImage else book.coverImage,
                  file := if completeFileName ≠ "" then completeFileName else book.file }
            { resp := .jsonBook updatedBook, db := some updatedBook, fs := fs2,
              trace := tr1 ++ tr2 ++ [Effect.updateRecord] }

/-- The environment of oracles for one deleteBook request: the record found
for the requested bookId, the two remote destroy outcomes per public id
(none means success), and whether the catalog deleteOne call throws. -/
structure DeleteEnv where
  db : Option Book
  destroyImage : String → Option Err
  destroyRaw : String → Option Err
  delete : Option Err

/-- The observable result of one deleteBook request. -/
structure DeleteOut where
  resp : Response
  db : Option Book
  trace : List Effect

/-- The deleteBook controller: load the record, enforce ownership, derive the
two public ids from the stored URLs, attempt both remote destroys in one try
block whose catch only logs (a rejection of the image destroy skips the raw
destroy), then delete the catalog record unconditionally and report 204. -/
def deleteBook (env : DeleteEnv) (userId : String) : DeleteOut :=
  match env.db with
  | none => { resp := .err 404 "Book not found", db := none, trace := [] }
  | some book =>
    if book.author ≠ userId then
      { resp := .err 403 "You can not delete others book.", db := some book, trace := [] }
    else
      let coverId := coverImagePublicId book.coverImage
      let rawId := bookFilePublicId book.file
      let destroyTrace :=
        Effect.destroyImage coverId ::
          (match env.destroyImage coverId with
           | some _ => []
           | none => [Effect.destroyRaw rawId])
      match env.delete with
      | some e =>
        { resp := .err 500 ("Error while deleting book: " ++ e.message),
          db := some book, trace := destroyTrace ++ [Effect.deleteRecord] }
      | none =>
        { resp := .noContent, db := none, trace := destroyTrace ++ [Effect.deleteRecord] }

/-! ### Concrete fixtures used by witnesses and counterexamples -/

/-- A well-formed staged cover image file. -/
def coverPartW : FilePart := { filename := "c.jpg", mimetype := "image/jpeg" }

/-- A well-formed staged PDF document file. -/
def bookPartW : FilePart := { filename := "b.pdf", mimetype := "application/pdf" }

/-- The resolved staging path of the fixture cover file. -/
def coverPathW : String := resolvePath "c.jpg"

/-- The resolved staging path of the fixture document file. -/
def bookPathW : String := resolvePath "b.pdf"

/-- A remote-store failure, recognizable by its message. -/
def errCloudW : Err := { name := "Error", message := "cloudinary upload failed", code := "" }

/-- A generic error fixture. -/
def errGenW : Err := { name := "Error", message := "boom", code := "" }

/-- An environment where nothing is staged and every oracle fails. -/
def envW1 : CreateEnv :=
  { fs := fun _ => false,
    uploadImage := fun _ => Except.error errGenW,
    uploadRaw := fun _ => Except.error errGenW,
    unlinkOk := fun _ => false,
    create := Except.error errGenW }

/-- An environment where both fixture files are staged, the image upload
succeeds, the raw upload throws a remote-store error, and the unlink of the
cover temp file is rejected while the unlink of the document temp file would
succeed. -/
def envC2cex : CreateEnv :=
  { fs := fun p => p == coverPathW || p == bookPathW,
    uploadImage := fun _ => Except.ok "https://res.example.com/book-covers/c.jpg",
    uploadRaw := fun _ => Except.error errCloudW,
    unlinkOk := fun p => !(p == coverPathW),
    create := Except.error errGenW }

/-- A catalog record owned by user "alice". -/
def bookRecW : Book :=
  { id := "id1", title := "T", description := "D", genre := "G", author := "alice",
    coverImage := "https://res.example.com/img/upload/book-covers/c.jpg",
    file := "https://res.example.com/raw/upload/book-pdfs/b.pdf" }

/-- An update environment holding the record owned by "alice". -/
def uenvW3 : UpdateEnv :=
  { db := some bookRecW, fs := fun _ => false,
    uploadImage := fun _ => Except.error errGenW,
    uploadRaw := fun _ => Except.error errGenW,
    unlinkOk := fun _ => false, update := none }

/-- A delete environment holding the record owned by "alice". -/
def denvW3 : DeleteEnv :=
  { db := some bookRecW, destroyImage := fun _ => none,
    destroyRaw := fun _ => none, delete := none }

/-- An environment where both fixture files are staged, the image upload
succeeds, the raw upload throws, and every unlink succeeds. -/
def envC2w : CreateEnv :=
  { fs := fun p => p == coverPathW || p == bookPathW,
    uploadImage := fun _ => Except.ok "https://res.example.com/img/upload/book-covers/c.jpg",
    uploadRaw := fun _ => Except.error errCloudW,
    unlinkOk := fun _ => true,
    create := Except.error errGenW }

/-- An environment where both fixture files are staged and every oracle
succeeds. -/
def envC7w : CreateEnv :=
  { fs := fun p => p == coverPathW || p == bookPathW,
    uploadImage := fun _ => Except.ok "https://res.example.com/img/upload/book-covers/c.jpg",
    uploadRaw := fun _ => Except.ok "https://res.example.com/raw/upload/book-pdfs/b.pdf",
    unlinkOk := fun _ => true,
    create := Except.ok "newid1" }

/-- The record the all-success fixture environment produces. -/
def bookC9 : Book :=
  { id := "newid1", title := "Dune", description := "desc", genre := "SciFi",
    author := "u1",
    coverImage := "https://res.example.com/img/upload/book-covers/c.jpg",
    file := "https://res.example.com/raw/upload/book-pdfs/b.pdf" }

/-- A delete environment holding that record, with all remote destroys and
the catalog delete succeeding. -/
def denvC9 : DeleteEnv :=
  { db := some bookC9, destroyImage := fun _ => none, destroyRaw := fun _ => none,
    delete := none }

/-- A staged document file whose declared content type is not PDF. -/
def badPdfPartW : FilePart := { filename := "b.txt", mimetype := "text/plain" }

/-- An update environment over the record owned by "alice" where the cover
is staged, the image upload succeeds, and the raw upload would throw. -/
def uenvC5 : UpdateEnv :=
  { db := some bookRecW, fs := fun p => p == coverPathW,
    uploadImage := fun _ => Except.ok "https://res.example.com/img/upload/book-covers/c2.jpg",
    uploadRaw := fun _ => Except.error errGenW,
    unlinkOk := fun _ => true, update := none }

/-- An update environment over the record owned by "alice" where the cover
is staged but both remote uploads throw. -/
def uenvC4 : UpdateEnv :=
  { db := some bookRecW, fs := fun p => p == coverPathW,
    uploadImage := fun _ => Except.error errGenW,
    uploadRaw := fun _ => Except.error errGenW,
    unlinkOk := fun _ => true, update := none }

/-- An update environment over the record owned by "alice" where both files
are staged, both remote uploads succeed, the unlink of the cover temp file
succeeds, but the unlink of the document temp file is rejected. -/
def uenvC10 : UpdateEnv :=
  { db := some bookRecW, fs := fun p => p == coverPathW || p == bookPathW,
    uploadImage := fun _ => Except.ok "https://res.example.com/img/upload/book-covers/c2.jpg",
    uploadRaw := fun _ => Except.ok "https://res.example.com/raw/upload/book-pdfs/b2.pdf",
    unlinkOk := fun p => p == coverPathW, update := none }

/-- A delete environment over the record owned by "alice" where the image
destroy succeeds and the raw destroy throws. -/
def denvC6 : DeleteEnv :=
  { db := some bookRecW, destroyImage := fun _ => none,
    destroyRaw := fun _ => some errGenW, delete := none }

/-! ### Theorems -/

/-- Claim C1: createBook validates its preconditions in order with the first
failure winning, each failure a distinct 400 error, in this order: title,
genre and description all non-empty; cover file present; document file
present; cover content type starts with "image/"; document content type is
exactly "application/pdf"; cover temp file exists locally; document temp
file exists locally.  Whenever any of these validations fails, the trace is
empty, so in particular no remote upload call occurs. -/
theorem createBook_validates_in_order (env : CreateEnv)
    (t g d : String) (cov fil : Option FilePart) (uid : String) :
    ((t = "" ∨ g = "" ∨ d = "") →
      (createBook env t g d cov fil uid).resp =
        Response.err 400 "Title, genre, and description are required" ∧
      (createBook env t g d cov fil uid).trace = []) ∧
    (t ≠ "" → g ≠ "" → d ≠ "" → cov = none →
      (createBook env t g d cov fil uid).resp = Response.err 400 "Cover image is required" ∧
      (createBook env t g d cov fil uid).trace = []) ∧
    (∀ c, t ≠ "" → g ≠ "" → d ≠ "" → cov = some c → fil = none →
      (createBook env t g d cov fil uid).resp = Response.err 400 "Book file is required" ∧
      (createBook env t g d cov fil uid).trace = []) ∧
    (∀ c b, t ≠ "" → g ≠ "" → d ≠ "" → cov = some c → fil = some b →
      jsStartsWith c.mimetype "image/" = false →
      (createBook env t g d cov fil uid).resp =
        Response.err 400 "Cover image must be an image file" ∧
      (createBook env t g d cov fil uid).trace = []) ∧
    (∀ c b, t ≠ "" → g ≠ "" → d ≠ "" → cov = some c → fil = some b →
      jsStartsWith c.mimetype "image/" = true → b.mimetype ≠ "application/pdf" →
      (createBook env t g d cov fil uid).resp = Response.err 400 "Book file must be a PDF" ∧
      (createBook env t g d cov fil uid).trace = []) ∧
    (∀ c b, t ≠ "" → g ≠ "" → d ≠ "" → cov = some c → fil = some b →
      jsStartsWith c.mimetype "image/" = true → b.mimetype = "application/pdf" →
      env.fs (resolvePath c.filename) = false →
      (createBook env t g d cov fil uid).resp =
        Response.err 400 "Cover image file not found on server" ∧
      (createBook env t g d cov fil uid).trace = []) ∧
    (∀ c b, t ≠ "" → g ≠ "" → d ≠ "" → cov = some c → fil = some b →
      jsStartsWith c.mimetype "image/" = true → b.mimetype = "application/pdf" →
      env.fs (resolvePath c.filename) = true →
      env.fs (resolvePath b.filename) = false →
      (createBook env t g d cov fil uid).resp =
        Response.err 400 "Book file not found on server" ∧
      (createBook env t g d cov fil uid).trace = []) := by
  refine ⟨?_, ?_, ?_, ?_, ?_, ?_, ?_⟩
  · intro h
    simp [createBook, h]
  · intro ht hg hd hcov
    simp [createBook, ht, hg, hd, hcov]
  · intro c ht hg hd hcov hfil
    simp [createBook, ht, hg, hd, hcov, hfil]
  · intro c b ht hg hd hcov hfil hmt
    simp [createBook, ht, hg, hd, hcov, hfil, hmt]
  · intro c b ht hg hd hcov hfil hmt hpdf
    simp [createBook, ht, hg, hd, hcov, hfil, hmt, hpdf]
  · intro c b ht hg hd hcov hfil hmt hpdf hfs
    simp [createBook, ht, hg, hd, hcov, hfil, hmt, hpdf, hfs]
  · intro c b ht hg hd hcov hfil hmt hpdf hfs1 hfs2
    simp [createBook, ht, hg, hd, hcov, hfil, hmt, hpdf, hfs1, hfs2]

/-- Witness for C1: with an empty title the concrete request is rejected with
the field-validation error and an empty effect trace. -/
theorem createBook_validates_in_order_witness :
    (createBook envW1 "" "SciFi" "desc" none none "u1").resp =
      Response.err 400 "Title, genre, and description are required" ∧
    (createBook envW1 "" "SciFi" "desc" none none "u1").trace = [] :=
  (createBook_validates_in_order envW1 "" "SciFi" "desc" none none "u1").1 (Or.inl rfl)

/-- Claim C3: for updateBook and deleteBook, when the caller's identifier
differs from the record's authorId (string comparison), the operation fails
with 403, the record under that id is unchanged, and no remote upload,
remote destroy or catalog mutation is attempted (empty trace). -/
theorem ownership_enforced (uenv : UpdateEnv) (denv : DeleteEnv)
    (t d g : String) (cov fil : Option FilePart) (uid : String) (book : Book) :
    (uenv.db = some book → book.author ≠ uid →
      (updateBook uenv t d g cov fil uid).resp =
        Response.err 403 "You can not update others book." ∧
      (updateBook uenv t d g cov fil uid).db = some book ∧
      (updateBook uenv t d g cov fil uid).trace = []) ∧
    (denv.db = some book → book.author ≠ uid →
      (deleteBook denv uid).resp = Response.err 403 "You can not delete others book." ∧
      (deleteBook denv uid).db = some book ∧
      (deleteBook denv uid).trace = []) := by
  constructor
  · intro hdb hne
    simp [updateBook, hdb, hne]
  · intro hdb hne
    simp [deleteBook, hdb, hne]

/-- Witness for C3: caller "bob" can neither update nor delete the record
owned by "alice"; both calls answer 403, keep the record, and perform no
remote or catalog side effect. -/
theorem ownership_enforced_witness :
    ((updateBook uenvW3 "t" "d" "g" none none "bob").resp =
        Response.err 403 "You can not update others book." ∧
      (updateBook uenvW3 "t" "d" "g" none none "bob").db = some bookRecW ∧
      (updateBook uenvW3 "t" "d" "g" none none "bob").trace = []) ∧
    ((deleteBook denvW3 "bob").resp = Response.err 403 "You can not delete others book." ∧
      (deleteBook denvW3 "bob").db = some bookRecW ∧
      (deleteBook denvW3 "bob").trace = []) :=
  ⟨(ownership_enforced uenvW3 denvW3 "t" "d" "g" none none "bob" bookRecW).1 rfl
      (by decide),
   (ownership_enforced uenvW3 denvW3 "t" "d" "g" none none "bob" bookRecW).2 rfl
      (by decide)⟩

/-- Helper: the catch-block cleanup never performs an upload effect. -/
theorem createCleanup_trace_no_upload (uok fs : String → Bool) (p1 p2 q : String) :
    Effect.uploadRaw q ∉ (createCleanup uok fs p1 p2).2 ∧
    Effect.uploadImage q ∉ (createCleanup uok fs p1 p2).2 := by
  cases h1 : fs p1 <;> cases h2 : uok p1 <;> cases h3 : uok p2 <;>
    cases h4 : fs p2 <;> cases h5 : removeFile fs p1 p2 <;>
      simp [createCleanup, h1, h2, h3, h4, h5]

/-- Counterexample to claim C2 as stated: the two guarded deletions of the
catch-block cleanup are not independent.  Here the document upload throws,
both temp files exist, the cover unlink is rejected while the document
unlink would succeed; yet the document temp file is never unlinked and still
exists when the error is surfaced, because the failed first unlink skipped
the second inside the shared try block. -/
theorem createBook_cleanup_not_independent :
    envC2cex.fs bookPathW = true ∧ envC2cex.unlinkOk bookPathW = true ∧
    (createBook envC2cex "t" "g" "d" (some coverPartW) (some bookPartW) "u").resp =
      Response.err 500 "Error uploading files to cloud storage" ∧
    Effect.unlink coverPathW ∈
      (createBook envC2cex "t" "g" "d" (some coverPartW) (some bookPartW) "u").trace ∧
    Effect.unlink bookPathW ∉
      (createBook envC2cex "t" "g" "d" (some coverPartW) (some bookPartW) "u").trace ∧
    (createBook envC2cex "t" "g" "d" (some coverPartW) (some bookPartW) "u").fs bookPathW
      = true := by
  decide

/-- Claim C2 (amended): on the createBook path, any error thrown by either
remote upload or by catalog record creation triggers, before the error is
surfaced, a best-effort deletion of both local temp files, each guarded by
its own existence check but executed in sequence inside a single protected
region, so a failing first deletion skips the second; when the deletions
succeed — in particular when the image upload succeeds and the document
upload throws — createBook returns an error, no catalog record exists, and
both local temp files are removed. -/
theorem createBook_error_cleanup (env : CreateEnv) (t g d : String)
    (c b : FilePart) (uid : String)
    (ht : t ≠ "") (hg : g ≠ "") (hd : d ≠ "")
    (hmt : jsStartsWith c.mimetype "image/" = true)
    (hpdf : b.mimetype = "application/pdf")
    (hfs1 : env.fs (resolvePath c.filename) = true)
    (hfs2 : env.fs (resolvePath b.filename) = true)
    (hne : resolvePath c.filename ≠ resolvePath b.filename)
    (hu1 : env.unlinkOk (resolvePath c.filename) = true)
    (hu2 : env.unlinkOk (resolvePath b.filename) = true) :
    (∀ e, env.uploadImage (resolvePath c.filename) = Except.error e →
      (createBook env t g d (some c) (some b) uid).resp = classifyCreateErr e ∧
      (createBook env t g d (some c) (some b) uid).book = none ∧
      (createBook env t g d (some c) (some b) uid).fs (resolvePath c.filename) = false ∧
      (createBook env t g d (some c) (some b) uid).fs (resolvePath b.filename) = false ∧
      (createBook env t g d (some c) (some b) uid).trace =
        [Effect.uploadImage (resolvePath c.filename),
         Effect.unlink (resolvePath c.filename), Effect.unlink (resolvePath b.filename)]) ∧
    (∀ u e, env.uploadImage (resolvePath c.filename) = Except.ok u →
      env.uploadRaw (resolvePath b.filename) = Except.error e →
      (createBook env t g d (some c) (some b) uid).resp = classifyCreateErr e ∧
      (createBook env t g d (some c) (some b) uid).book = none ∧
      (createBook env t g d (some c) (some b) uid).fs (resolvePath c.filename) = false ∧
      (createBook env t g d (some c) (some b) uid).fs (resolvePath b.filename) = false ∧
      (createBook env t g d (some c) (some b) uid).trace =
        [Effect.uploadImage (resolvePath c.filename),
         Effect.uploadRaw (resolvePath b.filename),
         Effect.unlink (resolvePath c.filename), Effect.unlink (resolvePath b.filename)]) ∧
    (∀ u v e, env.uploadImage (resolvePath c.filename) = Except.ok u →
      env.uploadRaw (resolvePath b.filename) = Except.ok v →
      env.create = Except.error e →
      (createBook env t g d (some c) (some b) uid).resp = classifyCreateErr e ∧
      (createBook env t g d (some c) (some b) uid).book = none ∧
      (createBook env t g d (some c) (some b) uid).fs (resolvePath c.filename) = false ∧
      (createBook env t g d (some c) (some b) uid).fs (resolvePath b.filename) = false ∧
      (createBook env t g d (some c) (some b) uid).trace =
        [Effect.uploadImage (resolvePath c.filename),
         Effect.uploadRaw (resolvePath b.filename), Effect.createRecord,
         Effect.unlink (resolvePath c.filename), Effect.unlink (resolvePath b.filename)]) := by
  refine ⟨?_, ?_, ?_⟩
  · intro e he
    simp [createBook, createBookCatch, createCleanup, removeFile,
      ht, hg, hd, hmt, hpdf, hfs1, hfs2, hne, Ne.symm hne, hu1, hu2, he]
  · intro u e hu he
    simp [createBook, createBookCatch, createCleanup, removeFile,
      ht, hg, hd, hmt, hpdf, hfs1, hfs2, hne, Ne.symm hne, hu1, hu2, hu, he]
  · intro u v e hu hv he
    simp [createBook, createBookCatch, createCleanup, removeFile,
      ht, hg, hd, hmt, hpdf, hfs1, hfs2, hne, Ne.symm hne, hu1, hu2, hu, hv, he]

/-- Witness for C2: in the environment where the image upload succeeds, the
document upload throws a remote-store error and both unlinks succeed, the
concrete request returns the re-classified error, creates no record, removes
both temp files, and its trace shows both uploads then both unlinks. -/
theorem createBook_error_cleanup_witness :
    (createBook envC2w "t" "g" "d" (some coverPartW) (some bookPartW) "u").resp =
      classifyCreateErr errCloudW ∧
    (createBook envC2w "t" "g" "d" (some coverPartW) (some bookPartW) "u").book = none ∧
    (createBook envC2w "t" "g" "d" (some coverPartW) (some bookPartW) "u").fs coverPathW
      = false ∧
    (createBook envC2w "t" "g" "d" (some coverPartW) (some bookPartW) "u").fs bookPathW
      = false ∧
    (createBook envC2w "t" "g" "d" (some coverPartW) (some bookPartW) "u").trace =
      [Effect.uploadImage coverPathW, Effect.uploadRaw bookPathW,
       Effect.unlink coverPathW, Effect.unlink bookPathW] :=
  (createBook_error_cleanup envC2w "t" "g" "d" coverPartW bookPartW "u"
    (by decide) (by decide) (by decide) (by decide) (by decide) (by decide) (by decide)
    (by decide) (by decide) (by decide)).2.1
    "https://res.example.com/img/upload/book-covers/c.jpg" errCloudW rfl rfl

/-- Claim C7: on the successful createBook path the side effects occur in
exactly the total order upload image, upload document, persist record,
unlink cover temp, unlink document temp, with the two uploads sequential
(no document upload effect ever occurs when the image upload failed); the
201 response carrying the new record's id is returned regardless of the
final cleanup's outcome, the record holds both URLs and the caller as
owner, and when both unlinks succeed neither temp file exists afterwards. -/
theorem createBook_success_ordering (env : CreateEnv) (t g d : String)
    (c b : FilePart) (uid : String)
    (ht : t ≠ "") (hg : g ≠ "") (hd : d ≠ "")
    (hmt : jsStartsWith c.mimetype "image/" = true)
    (hpdf : b.mimetype = "application/pdf")
    (hfs1 : env.fs (resolvePath c.filename) = true)
    (hfs2 : env.fs (resolvePath b.filename) = true)
    (hne : resolvePath c.filename ≠ resolvePath b.filename) :
    (∀ e, env.uploadImage (resolvePath c.filename) = Except.error e →
      ∀ q, Effect.uploadRaw q ∉ (createBook env t g d (some c) (some b) uid).trace) ∧
    (∀ u v nid, env.uploadImage (resolvePath c.filename) = Except.ok u →
      env.uploadRaw (resolvePath b.filename) = Except.ok v →
      env.create = Except.ok nid →
      (createBook env t g d (some c) (some b) uid).resp = Response.created nid ∧
      (createBook env t g d (some c) (some b) uid).book =
        some { id := nid, title := t, description := d, genre := g, author := uid,
               coverImage := u, file := v } ∧
      (env.unlinkOk (resolvePath c.filename) = true →
        env.unlinkOk (resolvePath b.filename) = true →
        (createBook env t g d (some c) (some b) uid).trace =
          [Effect.uploadImage (resolvePath c.filename),
           Effect.uploadRaw (resolvePath b.filename), Effect.createRecord,
           Effect.unlink (resolvePath c.filename), Effect.unlink (resolvePath b.filename)] ∧
        (createBook env t g d (some c) (some b) uid).fs (resolvePath c.filename) = false ∧
        (createBook env t g d (some c) (some b) uid).fs (resolvePath b.filename) = false) ∧
      (env.unlinkOk (resolvePath c.filename) = false →
        (createBook env t g d (some c) (some b) uid).trace =
          [Effect.uploadImage (resolvePath c.filename),
           Effect.uploadRaw (resolvePath b.filename), Effect.createRecord,
           Effect.unlink (resolvePath c.filename)])) := by
  constructor
  · intro e he q
    simp only [createBook, createBookCatch]
    simp [ht, hg, hd, hmt, hpdf, hfs1, hfs2, he]
    exact fun h =>
      (createCleanup_trace_no_upload env.unlinkOk env.fs (resolvePath c.filename)
        (resolvePath b.filename) q).1 h
  · intro u v nid hu hv hcr
    refine ⟨?_, ?_, ?_, ?_⟩
    · simp [createBook, ht, hg, hd, hmt, hpdf, hfs1, hfs2, hu, hv, hcr]
    · simp [createBook, ht, hg, hd, hmt, hpdf, hfs1, hfs2, hu, hv, hcr]
    · intro hu1 hu2
      simp [createBook, createSuccessCleanup, unlinkSucceeds, removeFile,
        ht, hg, hd, hmt, hpdf, hfs1, hfs2, hne, Ne.symm hne, hu, hv, hcr, hu1, hu2]
    · intro hu1
      simp [createBook, createSuccessCleanup, unlinkSucceeds, removeFile,
        ht, hg, hd, hmt, hpdf, hfs1, hfs2, hne, Ne.symm hne, hu, hv, hcr, hu1]

/-- Witness for C7: with everything succeeding on the concrete request, the
response is 201 with the new id, the record carries both URLs and the
caller, the trace is exactly the specified total order, and both temp files
are gone afterwards. -/
theorem createBook_success_ordering_witness :
    (createBook envC7w "Dune" "SciFi" "desc" (some coverPartW) (some bookPartW) "u1").resp =
      Response.created "newid1" ∧
    (createBook envC7w "Dune" "SciFi" "desc" (some coverPartW) (some bookPartW) "u1").book =
      some { id := "newid1", title := "Dune", description := "desc", genre := "SciFi",
             author := "u1",
             coverImage := "https://res.example.com/img/upload/book-covers/c.jpg",
             file := "https://res.example.com/raw/upload/book-pdfs/b.pdf" } ∧
    (createBook envC7w "Dune" "SciFi" "desc" (some coverPartW) (some bookPartW) "u1").trace =
      [Effect.uploadImage coverPathW, Effect.uploadRaw bookPathW, Effect.createRecord,
       Effect.unlink coverPathW, Effect.unlink bookPathW] ∧
    (createBook envC7w "Dune" "SciFi" "desc" (some coverPartW) (some bookPartW) "u1").fs
        coverPathW = false ∧
    (createBook envC7w "Dune" "SciFi" "desc" (some coverPartW) (some bookPartW) "u1").fs
        bookPathW = false := by
  have h := (createBook_success_ordering envC7w "Dune" "SciFi" "desc" coverPartW bookPartW
    "u1" (by decide) (by decide) (by decide) (by decide) (by decide) (by decide)
    (by decide) (by decide)).2
    "https://res.example.com/img/upload/book-covers/c.jpg"
    "https://res.example.com/raw/upload/book-pdfs/b.pdf" "newid1" rfl rfl rfl
  exact ⟨h.1, h.2.1, (h.2.2.1 rfl rfl).1, (h.2.2.1 rfl rfl).2.1, (h.2.2.1 rfl rfl).2.2⟩

/-- Claim C4: on the updateBook path, a remote upload failure for either
replacement file aborts the whole update with a 500 condition before the
catalog update runs: the response is the server-side upload error, the
stored record is unchanged, and no catalog update effect occurs.  The three
cases cover a failing cover upload, a failing document upload with no cover
supplied, and a failing document upload after a fully successful cover
replacement. -/
theorem updateBook_upload_failure_aborts (env : UpdateEnv) (t d g : String)
    (cov fil : Option FilePart) (uid : String) (book : Book)
    (hdb : env.db = some book) (hown : book.author = uid) :
    (∀ c e, cov = some c → jsStartsWith c.mimetype "image/" = true →
      env.fs (resolvePath c.filename) = true →
      env.uploadImage (resolvePath c.filename) = Except.error e →
      (updateBook env t d g cov fil uid).resp =
        Response.err 500 "Error uploading cover image" ∧
      (updateBook env t d g cov fil uid).db = some book ∧
      Effect.updateRecord ∉ (updateBook env t d g cov fil uid).trace) ∧
    (∀ b e, cov = none → fil = some b → b.mimetype = "application/pdf" →
      env.fs (resolvePath b.filename) = true →
      env.uploadRaw (resolvePath b.filename) = Except.error e →
      (updateBook env t d g cov fil uid).resp =
        Response.err 500 "Error uploading book file" ∧
      (updateBook env t d g cov fil uid).db = some book ∧
      Effect.updateRecord ∉ (updateBook env t d g cov fil uid).trace) ∧
    (∀ c b u e, cov = some c → fil = some b →
      jsStartsWith c.mimetype "image/" = true →
      env.fs (resolvePath c.filename) = true →
      env.uploadImage (resolvePath c.filename) = Except.ok u →
      env.unlinkOk (resolvePath c.filename) = true →
      b.mimetype = "application/pdf" →
      resolvePath b.filename ≠ resolvePath c.filename →
      env.fs (resolvePath b.filename) = true →
      env.uploadRaw (resolvePath b.filename) = Except.error e →
      (updateBook env t d g cov fil uid).resp =
        Response.err 500 "Error uploading book file" ∧
      (updateBook env t d g cov fil uid).db = some book ∧
      Effect.updateRecord ∉ (updateBook env t d g cov fil uid).trace) := by
  refine ⟨?_, ?_, ?_⟩
  · intro c e hc hmt hfs hup
    simp [updateBook, updateCoverStep, hdb, hown, hc, hmt, hfs, hup]
  · intro b e hc hb hpdf hfs hup
    simp [updateBook, updateCoverStep, updateFileStep, hdb, hown, hc, hb, hpdf, hfs, hup]
  · intro c b u e hc hb hmt hfsc hup hul hpdf hne hfsb hupb
    simp [updateBook, updateCoverStep, updateFileStep, unlinkSucceeds, removeFile,
      hdb, hown, hc, hb, hmt, hfsc, hup, hul, hpdf, hne, hfsb, hupb]

/-- Witness for C4: on the concrete update where the caller owns the record,
the replacement cover is staged and its remote upload throws, the update
answers 500, the record is unchanged, and no catalog update effect occurs. -/
theorem updateBook_upload_failure_aborts_witness :
    (updateBook uenvC4 "t" "d" "g" (some coverPartW) none "alice").resp =
      Response.err 500 "Error uploading cover image" ∧
    (updateBook uenvC4 "t" "d" "g" (some coverPartW) none "alice").db = some bookRecW ∧
    Effect.updateRecord ∉ (updateBook uenvC4 "t" "d" "g" (some coverPartW) none "alice").trace :=
  (updateBook_upload_failure_aborts uenvC4 "t" "d" "g" (some coverPartW) none "alice"
    bookRecW rfl rfl).1 coverPartW errGenW rfl (by decide) (by decide) rfl

/-- Helper: a cover-image block that resolves without aborting never put a
catalog update effect into its trace. -/
theorem updateCoverStep_trace_no_update (env : UpdateEnv) (fs0 : String → Bool)
    (cov : Option FilePart) (url : String) (fs1 : String → Bool) (tr1 : List Effect)
    (h : updateCoverStep env fs0 cov = StepResult.ok url fs1 tr1) :
    Effect.updateRecord ∉ tr1 := by
  cases cov with
  | none =>
    simp only [updateCoverStep] at h
    cases h
    simp
  | some cf =>
    simp only [updateCoverStep] at h
    repeat' split at h
    all_goals cases h
    all_goals simp

/-- Claim C10: in updateBook the unlink of a successfully uploaded temp file
runs inside the same try block as the upload, so whenever an upload succeeds
and the following unlink is rejected, the whole update aborts with the same
500 upload-error condition, the record is unchanged and no catalog update
effect occurs, even though the upload effect is already in the trace.  The
cover case holds for any supplied document file; the document case is
stated over any resolved cover block, covering both no cover supplied and a
fully successful cover replacement. -/
theorem updateBook_unlink_same_region (env : UpdateEnv) (t d g : String)
    (cov fil : Option FilePart) (uid : String) (book : Book)
    (hdb : env.db = some book) (hown : book.author = uid) :
    (∀ c u, cov = some c → jsStartsWith c.mimetype "image/" = true →
      env.fs (resolvePath c.filename) = true →
      env.uploadImage (resolvePath c.filename) = Except.ok u →
      env.unlinkOk (resolvePath c.filename) = false →
      (updateBook env t d g cov fil uid).resp =
        Response.err 500 "Error uploading cover image" ∧
      (updateBook env t d g cov fil uid).db = some book ∧
      Effect.uploadImage (resolvePath c.filename) ∈ (updateBook env t d g cov fil uid).trace ∧
      Effect.updateRecord ∉ (updateBook env t d g cov fil uid).trace) ∧
    (∀ url fs1 tr1 b u, updateCoverStep env env.fs cov = StepResult.ok url fs1 tr1 →
      fil = some b → b.mimetype = "application/pdf" →
      fs1 (resolvePath b.filename) = true →
      env.uploadRaw (resolvePath b.filename) = Except.ok u →
      env.unlinkOk (resolvePath b.filename) = false →
      (updateBook env t d g cov fil uid).resp =
        Response.err 500 "Error uploading book file" ∧
      (updateBook env t d g cov fil uid).db = some book ∧
      Effect.uploadRaw (resolvePath b.filename) ∈ (updateBook env t d g cov fil uid).trace ∧
      Effect.updateRecord ∉ (updateBook env t d g cov fil uid).trace) := by
  constructor
  · intro c u hc hmt hfs hup hul
    simp [updateBook, updateCoverStep, unlinkSucceeds, hdb, hown, hc, hmt, hfs, hup, hul]
  · intro url fs1 tr1 b u hstep hfil hpdf hfs hup hul
    have hnoupd : Effect.updateRecord ∉ tr1 :=
      updateCoverStep_trace_no_update env env.fs cov url fs1 tr1 hstep
    refine ⟨?_, ?_, ?_, ?_⟩
    · simp [updateBook, updateFileStep, unlinkSucceeds, hdb, hown, hstep, hfil, hpdf,
        hfs, hup, hul]
    · simp [updateBook, updateFileStep, unlinkSucceeds, hdb, hown, hstep, hfil, hpdf,
        hfs, hup, hul]
    · simp [updateBook, updateFileStep, unlinkSucceeds, hdb, hown, hstep, hfil, hpdf,
        hfs, hup, hul]
    · simp [updateBook, updateFileStep, unlinkSucceeds, hdb, hown, hstep, hfil, hpdf,
        hfs, hup, hul]
      exact hnoupd

/-- Witness for C10: on the concrete update where the supplied cover fully
succeeds (upload and unlink) and the document upload then succeeds but its
unlink is rejected, the update answers 500 book-file-upload error, the
record is unchanged, both upload effects are in the trace, and no catalog
update effect occurs. -/
theorem updateBook_unlink_same_region_witness :
    (updateBook uenvC10 "t" "d" "g" (some coverPartW) (some bookPartW) "alice").resp =
      Response.err 500 "Error uploading book file" ∧
    (updateBook uenvC10 "t" "d" "g" (some coverPartW) (some bookPartW) "alice").db =
      some bookRecW ∧
    Effect.uploadRaw bookPathW ∈
      (updateBook uenvC10 "t" "d" "g" (some coverPartW) (some bookPartW) "alice").trace ∧
    Effect.updateRecord ∉
      (updateBook uenvC10 "t" "d" "g" (some coverPartW) (some bookPartW) "alice").trace :=
  (updateBook_unlink_same_region uenvC10 "t" "d" "g" (some coverPartW) (some bookPartW)
    "alice" bookRecW rfl rfl).2
    "https://res.example.com/img/upload/book-covers/c2.jpg"
    (removeFile uenvC10.fs coverPathW)
    [Effect.uploadImage coverPathW, Effect.unlink coverPathW] bookPartW
    "https://res.example.com/raw/upload/book-pdfs/b2.pdf"
    rfl rfl rfl (by decide) rfl (by decide)

/-- Helper: a cover-image block that resolves without aborting never put a
raw (document) upload effect into its trace. -/
theorem updateCoverStep_trace_no_raw (env : UpdateEnv) (fs0 : String → Bool)
    (cov : Option FilePart) (url : String) (fs1 : String → Bool) (tr1 : List Effect)
    (q : String) (h : updateCoverStep env fs0 cov = StepResult.ok url fs1 tr1) :
    Effect.uploadRaw q ∉ tr1 := by
  cases cov with
  | none =>
    simp only [updateCoverStep] at h
    cases h
    simp
  | some cf =>
    simp only [updateCoverStep] at h
    repeat' split at h
    all_goals cases h
    all_goals simp

/-- Counterexample to claim C5 as stated: when both optional files are
supplied, a valid cover and a document whose declared type is not PDF, the
document's field-level validation error is reported only after the cover
upload, a network call to the remote object store, has already been made. -/
theorem updateBook_validation_after_network_cex :
    (updateBook uenvC5 "t" "d" "g" (some coverPartW) (some badPdfPartW) "alice").resp =
      Response.err 400 "Book file must be a PDF" ∧
    Effect.uploadImage coverPathW ∈
      (updateBook uenvC5 "t" "d" "g" (some coverPartW) (some badPdfPartW) "alice").trace := by
  decide

/-- Claim C5 (amended): on the updateBook path, a supplied cover file with an
invalid content type is reported before any network call to the remote
object store; a supplied document file with an invalid content type is
reported before any upload of the document file itself, but when a cover
file was also supplied its upload has already been performed by then. -/
theorem updateBook_fieldvalidation_scope (env : UpdateEnv) (t d g : String)
    (cov fil : Option FilePart) (uid : String) (book : Book)
    (hdb : env.db = some book) (hown : book.author = uid) :
    (∀ c, cov = some c → jsStartsWith c.mimetype "image/" = false →
      (updateBook env t d g cov fil uid).resp =
        Response.err 400 "Cover image must be an image file" ∧
      (updateBook env t d g cov fil uid).trace = []) ∧
    (∀ url fs1 tr1 b, updateCoverStep env env.fs cov = StepResult.ok url fs1 tr1 →
      fil = some b → b.mimetype ≠ "application/pdf" →
      (updateBook env t d g cov fil uid).resp = Response.err 400 "Book file must be a PDF" ∧
      (updateBook env t d g cov fil uid).trace = tr1 ∧
      ∀ q, Effect.uploadRaw q ∉ (updateBook env t d g cov fil uid).trace) := by
  constructor
  · intro c hc hbad
    simp [updateBook, updateCoverStep, hdb, hown, hc, hbad]
  · intro url fs1 tr1 b hstep hfil hbad
    have hnoraw : ∀ q, Effect.uploadRaw q ∉ tr1 := fun q =>
      updateCoverStep_trace_no_raw env env.fs cov url fs1 tr1 q hstep
    refine ⟨?_, ?_, ?_⟩
    · simp [updateBook, updateFileStep, hdb, hown, hstep, hfil, hbad]
    · simp [updateBook, updateFileStep, hdb, hown, hstep, hfil, hbad]
    · intro q
      simp [updateBook, updateFileStep, hdb, hown, hstep, hfil, hbad]
      exact hnoraw q

/-- Witness for C5 (amended): on the concrete update supplying only a
document file with a non-PDF type, the 400 error is reported with an empty
trace, so no upload of the document file was made. -/
theorem updateBook_fieldvalidation_scope_witness :
    (updateBook uenvC5 "t" "d" "g" none (some badPdfPartW) "alice").resp =
      Response.err 400 "Book file must be a PDF" ∧
    (updateBook uenvC5 "t" "d" "g" none (some badPdfPartW) "alice").trace = [] ∧
    Effect.uploadRaw (resolvePath "b.txt") ∉
      (updateBook uenvC5 "t" "d" "g" none (some badPdfPartW) "alice").trace := by
  have h := (updateBook_fieldvalidation_scope uenvC5 "t" "d" "g" none
    (some badPdfPartW) "alice" bookRecW rfl rfl).2 "" uenvC5.fs [] badPdfPartW rfl rfl
    (by decide)
  exact ⟨h.1, h.2.1, h.2.2 (resolvePath "b.txt")⟩

/-- Claim C6: once deleteBook has confirmed ownership and the catalog delete
succeeds, a failure of either remote destroy is swallowed: the record is
removed from the catalog and the response is 204 no-content regardless of
the destroy outcomes, and in the particular case where the image destroy
succeeds and the raw destroy throws, the trace still shows both destroy
attempts followed by the catalog deletion. -/
theorem deleteBook_swallows_destroy_failures (env : DeleteEnv) (uid : String)
    (book : Book) (hdb : env.db = some book) (hown : book.author = uid)
    (hdel : env.delete = none) :
    (deleteBook env uid).resp = Response.noContent ∧
    (deleteBook env uid).db = none ∧
    Effect.deleteRecord ∈ (deleteBook env uid).trace ∧
    (∀ e, env.destroyImage (coverImagePublicId book.coverImage) = none →
      env.destroyRaw (bookFilePublicId book.file) = some e →
      (deleteBook env uid).trace =
        [Effect.destroyImage (coverImagePublicId book.coverImage),
         Effect.destroyRaw (bookFilePublicId book.file), Effect.deleteRecord]) := by
  refine ⟨?_, ?_, ?_, ?_⟩
  · simp [deleteBook, hdb, hown, hdel]
  · simp [deleteBook, hdb, hown, hdel]
  · cases himg : env.destroyImage (coverImagePublicId book.coverImage) <;>
      simp [deleteBook, hdb, hown, hdel, himg]
  · intro e h1 h2
    simp [deleteBook, hdb, hown, hdel, h1]

/-- Witness for C6: on the concrete delete where the image destroy succeeds
and the raw destroy throws, the record is removed, the response is 204 and
the trace shows both destroy attempts then the catalog deletion. -/
theorem deleteBook_swallows_destroy_failures_witness :
    (deleteBook denvC6 "alice").resp = Response.noContent ∧
    (deleteBook denvC6 "alice").db = none ∧
    Effect.deleteRecord ∈ (deleteBook denvC6 "alice").trace ∧
    (deleteBook denvC6 "alice").trace =
      [Effect.destroyImage (coverImagePublicId bookRecW.coverImage),
       Effect.destroyRaw (bookFilePublicId bookRecW.file), Effect.deleteRecord] := by
  have h := deleteBook_swallows_destroy_failures denvC6 "alice" bookRecW rfl rfl rfl
  exact ⟨h.1, h.2.1, h.2.2.1, h.2.2.2 errGenW rfl rfl⟩

/-- Claim C8: createBook re-classifies every caught error before surfacing
it, in the catch block's priority order: an error whose message mentions the
remote store becomes a 500 upload-failure condition; otherwise a
ValidationError becomes a 400 invalid-data condition carrying the
validator's message; otherwise an ENOENT error becomes a 400 file-not-found
condition; every remaining error becomes a generic 500 annotated with the
underlying message.  Every classified error is one of these mapped 400/500
conditions, so no raw error crosses the boundary, and on the createBook path
an upload error is surfaced exactly through this classification. -/
theorem createBook_error_classification :
    (∀ e : Err, includesSubstr e.message "cloudinary" = true →
      classifyCreateErr e = Response.err 500 "Error uploading files to cloud storage") ∧
    (∀ e : Err, includesSubstr e.message "cloudinary" = false →
      e.name = "ValidationError" →
      classifyCreateErr e = Response.err 400 ("Invalid book data: " ++ e.message)) ∧
    (∀ e : Err, includesSubstr e.message "cloudinary" = false →
      e.name ≠ "ValidationError" → e.code = "ENOENT" →
      classifyCreateErr e = Response.err 400 "File not found on server") ∧
    (∀ e : Err, includesSubstr e.message "cloudinary" = false →
      e.name ≠ "ValidationError" → e.code ≠ "ENOENT" →
      classifyCreateErr e =
        Response.err 500 ("Error while uploading the files: " ++ e.message)) ∧
    (∀ e : Err, ∃ s m, classifyCreateErr e = Response.err s m ∧ (s = 400 ∨ s = 500)) ∧
    (∀ (env : CreateEnv) (t g d : String) (c b : FilePart) (uid : String) (e : Err),
      t ≠ "" → g ≠ "" → d ≠ "" →
      jsStartsWith c.mimetype "image/" = true → b.mimetype = "application/pdf" →
      env.fs (resolvePath c.filename) = true → env.fs (resolvePath b.filename) = true →
      env.uploadImage (resolvePath c.filename) = Except.error e →
      (createBook env t g d (some c) (some b) uid).resp = classifyCreateErr e) := by
  refine ⟨?_, ?_, ?_, ?_, ?_, ?_⟩
  · intro e h
    simp [classifyCreateErr, h]
  · intro e h1 h2
    simp [classifyCreateErr, h1, h2]
  · intro e h1 h2 h3
    simp [classifyCreateErr, h1, h2, h3]
  · intro e h1 h2 h3
    simp [classifyCreateErr, h1, h2, h3]
  · intro e
    unfold classifyCreateErr
    split_ifs <;> exact ⟨_, _, rfl, by simp⟩
  · intro env t g d c b uid e ht hg hd hmt hpdf hfs1 hfs2 he
    simp [createBook, createBookCatch, ht, hg, hd, hmt, hpdf, hfs1, hfs2, he]

/-- Witness for C8: the concrete remote-store error, whose message contains
the store's name, is classified as the 500 upload-failure condition. -/
theorem createBook_error_classification_witness :
    classifyCreateErr errCloudW =
      Response.err 500 "Error uploading files to cloud storage" :=
  createBook_error_classification.1 errCloudW (by decide)

/-- Helper: JS at(-2) and at(-1) on a list ending in two known elements. -/
theorem atNeg_append_two (l : List String) (a c : String) :
    atNeg (l ++ [a, c]) 2 = some a ∧ atNeg (l ++ [a, c]) 1 = some c := by
  constructor <;> simp [atNeg]

/-- Claim C9: for a record produced by createBook whose stored URLs have the
fixed shapes, slash-segments ending in a folder and a one-dot name.ext for
the image, slash-segments ending in a folder and a name for the raw object,
the public-id derivation yields folder/name for the image and folder/name
(full last segment) for the raw object, and a subsequent deleteBook on that
record targets exactly those identifiers in its remote destroy calls. -/
theorem publicId_roundtrip (cenv : CreateEnv) (denv : DeleteEnv)
    (t g d uid : String) (cov fil : Option FilePart) (nb : Book)
    (hcreated : (createBook cenv t g d cov fil uid).book = some nb)
    (restC : List String) (folderC lastC nameC extC : String)
    (hC1 : jsSplit nb.coverImage '/' = restC ++ [folderC, lastC])
    (hC2 : jsSplit lastC '.' = [nameC, extC])
    (restR : List String) (folderR nameR : String)
    (hR : jsSplit nb.file '/' = restR ++ [folderR, nameR])
    (hdb : denv.db = some nb) :
    coverImagePublicId nb.coverImage = folderC ++ "/" ++ nameC ∧
    bookFilePublicId nb.file = folderR ++ "/" ++ nameR ∧
    Effect.destroyImage (folderC ++ "/" ++ nameC) ∈ (deleteBook denv nb.author).trace ∧
    (denv.destroyImage (folderC ++ "/" ++ nameC) = none →
      Effect.destroyRaw (folderR ++ "/" ++ nameR) ∈ (deleteBook denv nb.author).trace) := by
  have hca := atNeg_append_two restC folderC lastC
  have hra := atNeg_append_two restR folderR nameR
  have hcov : coverImagePublicId nb.coverImage = folderC ++ "/" ++ nameC := by
    simp [coverImagePublicId, hC1, hca.1, hca.2, hC2, strOrUndef, atNeg]
  have hraw : bookFilePublicId nb.file = folderR ++ "/" ++ nameR := by
    simp [bookFilePublicId, hR, hra.1, hra.2, strOrUndef]
  refine ⟨hcov, hraw, ?_, ?_⟩
  · cases himg : denv.destroyImage (coverImagePublicId nb.coverImage) <;>
      cases hdl : denv.delete <;>
        simp [deleteBook, hdb, himg, hdl, hcov, hraw]
  · intro hok
    cases hdl : denv.delete <;> simp [deleteBook, hdb, hdl, hcov, hraw, hok]

/-- Witness for C9: the record the all-success environment creates stores
URLs of the fixed shapes; the derivations yield book-covers/c and
book-pdfs/b.pdf, and the concrete deleteBook targets exactly these two
identifiers in its destroy calls. -/
theorem publicId_roundtrip_witness :
    coverImagePublicId bookC9.coverImage = "book-covers" ++ "/" ++ "c" ∧
    bookFilePublicId bookC9.file = "book-pdfs" ++ "/" ++ "b.pdf" ∧
    Effect.destroyImage ("book-covers" ++ "/" ++ "c") ∈
      (deleteBook denvC9 bookC9.author).trace ∧
    Effect.destroyRaw ("book-pdfs" ++ "/" ++ "b.pdf") ∈
      (deleteBook denvC9 bookC9.author).trace := by
  have h := publicId_roundtrip envC7w denvC9 "Dune" "SciFi" "desc" "u1"
    (some coverPartW) (some bookPartW) bookC9 (by decide)
    ["https:", "", "res.example.com", "img", "upload"] "book-covers" "c.jpg" "c" "jpg"
    (by decide) (by decide)
    ["https:", "", "res.example.com", "raw", "upload"] "book-pdfs" "b.pdf"
    (by decide) rfl
  exact ⟨h.1, h.2.1, h.2.2.1, h.2.2.2 rfl⟩

end ELibrary
